import Mathlib

/-!
Verification of the OAuth 2.0 authorization-code flow of tickrs, embedded
shallowly from src/api/auth.rs and src/constants.rs.  Rust strings are
modelled as lists of characters; the Rust string operations used by the
callback parser (split, split_whitespace, contains, replace) are
re-implemented below as executable structural recursions with the same
behavior on the inputs the program feeds them.
-/

abbrev Str := List Char

/-- Rust str::split_whitespace: the pieces separated by runs of whitespace,
with no empty pieces.  The accumulator holds the current piece reversed. -/
def splitWhitespaceAux : Str → Str → List Str
  | cur, [] => if cur = [] then [] else [cur.reverse]
  | cur, c :: cs =>
    if c.isWhitespace then
      if cur = [] then splitWhitespaceAux [] cs
      else cur.reverse :: splitWhitespaceAux [] cs
    else splitWhitespaceAux (c :: cur) cs

/-- request_line.split_whitespace().collect() in parse_callback_request. -/
def splitWhitespace (s : Str) : List Str :=
  splitWhitespaceAux [] s

/-- Rust str::split(sep) for a one-character separator: the pieces between
occurrences of sep, empty pieces kept; never returns an empty list. -/
def splitOnChar (sep : Char) : Str → List Str
  | [] => [[]]
  | c :: cs =>
    if c = sep then [] :: splitOnChar sep cs
    else
      match splitOnChar sep cs with
      | p :: rest => (c :: p) :: rest
      | [] => [[c]]

/-- Boolean test that needle is a prefix of hay. -/
def isPrefixSeq : Str → Str → Bool
  | [], _ => true
  | _ :: _, [] => false
  | a :: as, b :: bs => if a = b then isPrefixSeq as bs else false

/-- Rust str::contains(needle): substring search at every position. -/
def containsSeq : Str → Str → Bool
  | [], needle => isPrefixSeq needle []
  | c :: t, needle => isPrefixSeq needle (c :: t) || containsSeq t needle

/-- Rust str::replace(pat, rep): replace every non-overlapping occurrence of
pat, scanning left to right.  The extra fuel argument only bounds the
recursion; every call below passes fuel = s.length, and since each step
consumes at least one character of s the fuel-exhaustion branch is
unreachable.  All patterns used by urlencoding_decode are non-empty, which
the guard in the step case records. -/
def replaceAllFuel (pat rep : Str) : Nat → Str → Str
  | _, [] => []
  | 0, s => s
  | fuel + 1, c :: cs =>
    if pat ≠ [] ∧ isPrefixSeq pat (c :: cs) = true then
      rep ++ replaceAllFuel pat rep fuel (List.drop (pat.length - 1) cs)
    else
      c :: replaceAllFuel pat rep fuel cs

/-- Rust str::replace(pat, rep) on s, for non-empty pat. -/
def replaceAll (pat rep s : Str) : Str :=
  replaceAllFuel pat rep s.length s

/-- src/api/auth.rs urlencoding_decode: eight chained str::replace calls,
in the source's order. -/
def urlencoding_decode (s : Str) : Str :=
  let s := replaceAll ("%20".data) (" ".data) s
  let s := replaceAll ("%21".data) ("!".data) s
  let s := replaceAll ("%2B".data) ("+".data) s
  let s := replaceAll ("%3D".data) ("=".data) s
  let s := replaceAll ("%26".data) ("&".data) s
  let s := replaceAll ("%3F".data) ("?".data) s
  let s := replaceAll ("%2F".data) ("/".data) s
  replaceAll ("%3A".data) (":".data) s

/-- The for-loop in src/api/auth.rs extract_param: scan the &-separated
pairs, split each at '=' (key and value are the first two pieces), and
return the decoded value of the first pair whose key equals param. -/
def extract_param_loop (pairs : List Str) (param : Str) : Option Str :=
  match pairs with
  | [] => none
  | pair :: rest =>
    match splitOnChar '=' pair with
    | key :: value :: _ =>
      if key = param then some (urlencoding_decode value)
      else extract_param_loop rest param
    | _ => extract_param_loop rest param

/-- src/api/auth.rs extract_param: the query is the second piece of
path.split('?') (None when there is no '?'), then the pair loop. -/
def extract_param (path param : Str) : Option Str :=
  match (splitOnChar '?' path).get? 1 with
  | some query => extract_param_loop (splitOnChar '&' query) param
  | none => none

/-- The distinct failures produced by the flow in src/api/auth.rs, one per
anyhow! message site. -/
inductive AuthError where
  | invalidFormat
  | authorizationFailed (msg : Str)
  | noAuthorizationCode
  | noState
  | csrfMismatch
deriving DecidableEq

/-- The fallback message in the error branch of parse_callback_request. -/
def unknown_authorization_error : Str := "Unknown authorization error".data

/-- The body of src/api/auth.rs parse_callback_request once the path has
been extracted: substring check for "error=" first, then code, then
state. -/
def parse_callback_path (path : Str) : Except AuthError (Str × Str) :=
  if containsSeq path ("error=".data) = true then
    Except.error (AuthError.authorizationFailed
      (((extract_param path ("error_description".data)).orElse
          (fun _ => extract_param path ("error".data))).getD unknown_authorization_error))
  else
    match extract_param path ("code".data) with
    | none => Except.error AuthError.noAuthorizationCode
    | some code =>
      match extract_param path ("state".data) with
      | none => Except.error AuthError.noState
      | some state => Except.ok (code, state)

/-- src/api/auth.rs parse_callback_request: the path is the second
whitespace-separated part of the request line (fewer than two parts is an
invalid format). -/
def parse_callback_request (request_line : Str) : Except AuthError (Str × Str) :=
  match (splitWhitespace request_line).get? 1 with
  | some path => parse_callback_path path
  | none => Except.error AuthError.invalidFormat

/-- The two HTML pages of src/api/auth.rs: create_success_response and
create_error_response (the latter carries the message interpolated into
the page body). -/
inductive HttpResponse where
  | success
  | failure (message : Str)
deriving DecidableEq

instance {ε α : Type} [DecidableEq ε] [DecidableEq α] : DecidableEq (Except ε α) := fun x y =>
  match x, y with
  | Except.error a, Except.error b => decidable_of_iff (a = b) (by simp)
  | Except.ok a, Except.ok b => decidable_of_iff (a = b) (by simp)
  | Except.error _, Except.ok _ => isFalse (by simp)
  | Except.ok _, Except.error _ => isFalse (by simp)

/-- What one run of capture_callback does to the accepted connection: the
HTTP responses written to the stream, in order, and the returned value. -/
structure CallbackOutcome where
  responses : List HttpResponse
  result : Except AuthError Str
deriving DecidableEq

/-- The message passed to create_error_response on CSRF mismatch. -/
def csrf_mismatch_page_message : Str :=
  "CSRF token mismatch - possible security issue".data

/-- The literal address passed to TcpListener::bind in capture_callback. -/
def capture_callback_bind_addr : String := "127.0.0.1:8080"

/-- src/api/auth.rs AuthHandler::capture_callback after bind/accept/read:
parse the request line (a parse failure propagates with no response
written), then compare state with the expected CSRF secret; on mismatch
write the error page and fail, otherwise write the success page and return
the code. -/
def capture_callback (expected_csrf request_line : Str) : CallbackOutcome :=
  match parse_callback_request request_line with
  | Except.error e => { responses := [], result := Except.error e }
  | Except.ok (code, state) =>
    if state ≠ expected_csrf then
      { responses := [HttpResponse.failure csrf_mismatch_page_message],
        result := Except.error AuthError.csrfMismatch }
    else
      { responses := [HttpResponse.success], result := Except.ok code }

/-- The externally visible steps of run_oauth_flow and capture_callback,
in program order. -/
inductive FlowEvent where
  | getAuthUrl
  | openBrowser
  | bindListener
  | acceptConnection
  | readRequestLine
  | writeResponse (r : HttpResponse)
  | exchangeCode (code : Str)
deriving DecidableEq, BEq

def FlowEvent.isExchangeCode : FlowEvent → Bool
  | FlowEvent.exchangeCode _ => true
  | _ => false

/-- src/api/auth.rs AuthHandler::run_oauth_flow: get_auth_url, then
webbrowser::open (best effort), then capture_callback (which binds,
accepts, reads and answers), then exchange_code only when the capture
succeeded.  csrf_token stands for the random token returned by
get_auth_url, request_line for the request the browser delivers, and
token_result for the network outcome of the token exchange. -/
def run_oauth_flow (token_result : Str → Except AuthError Str)
    (csrf_token request_line : Str) : List FlowEvent × Except AuthError Str :=
  let cc := capture_callback csrf_token request_line
  let events := FlowEvent.getAuthUrl :: FlowEvent.openBrowser :: FlowEvent.bindListener ::
    FlowEvent.acceptConnection :: FlowEvent.readRequestLine ::
    cc.responses.map FlowEvent.writeResponse
  match cc.result with
  | Except.error e => (events, Except.error e)
  | Except.ok code => (events ++ [FlowEvent.exchangeCode code], token_result code)

/-- src/constants.rs OAUTH_AUTH_URL. -/
def OAUTH_AUTH_URL : String := "https://ticktick.com/oauth/authorize"

/-- src/constants.rs OAUTH_TOKEN_URL. -/
def OAUTH_TOKEN_URL : String := "https://ticktick.com/oauth/token"

/-- src/constants.rs OAUTH_REDIRECT_URI. -/
def OAUTH_REDIRECT_URI : String := "http://localhost:8080"

/-- src/constants.rs OAUTH_SCOPES. -/
def OAUTH_SCOPES : List String := ["tasks:write", "tasks:read"]

/-- reqwest's redirect policies: none, or follow up to a limit. -/
inductive RedirectPolicy where
  | none
  | limited (max_redirects : Nat)
deriving DecidableEq

/-- The part of a reqwest client configuration the claims depend on. -/
structure HttpClientConfig where
  redirect : RedirectPolicy
deriving DecidableEq

/-- reqwest::Client::builder(): the default configuration follows up to
ten redirects. -/
def reqwest_client_builder_default : HttpClientConfig :=
  { redirect := RedirectPolicy.limited 10 }

/-- reqwest::ClientBuilder::redirect(p). -/
def set_redirect (b : HttpClientConfig) (p : RedirectPolicy) : HttpClientConfig :=
  { b with redirect := p }

/-- One invocation of the token exchange: the client it builds and the
code it sends. -/
structure TokenExchangeInvocation where
  client : HttpClientConfig
  code : Str
deriving DecidableEq

/-- src/api/auth.rs AuthHandler::exchange_code, lines 107-123: builds a
fresh reqwest client with Policy::none() and posts the code to the token
endpoint; the network response itself is external and not modelled. -/
def exchange_code (code : Str) : TokenExchangeInvocation :=
  { client := set_redirect reqwest_client_builder_default RedirectPolicy.none,
    code := code }

/-- Space-joined scope list, as the authorization query carries it. -/
def joinSpace : List Str → Str
  | [] => []
  | [s] => s
  | s :: rest => s ++ ' ' :: joinSpace rest

/-- Modelled from the spec: the authorization URL assembled by the external
oauth2 crate's authorize_url.  get_auth_url in src/api/auth.rs only
configures the client_id, the fixed redirect URI and the scopes and
receives a fresh random state token; the query assembly itself is library
code outside this repository, so it is taken from the spec's description
of the authorization request (response_type=code, client_id, redirect_uri,
scope list, state). -/
def authorize_url (client_id state : Str) (scopes : List Str) : Str :=
  OAUTH_AUTH_URL.data ++ ("?response_type=code&client_id=".data ++ (client_id
    ++ ("&redirect_uri=".data ++ (OAUTH_REDIRECT_URI.data
    ++ ("&scope=".data ++ (joinSpace scopes
    ++ ("&state=".data ++ state)))))))

/-- src/api/auth.rs AuthHandler::get_auth_url: returns the authorization
URL over the configured scopes together with the fresh CSRF token
(csrf_token stands for the random value CsrfToken::new_random drew). -/
def get_auth_url (client_id csrf_token : Str) : Str × Str :=
  (authorize_url client_id csrf_token (OAUTH_SCOPES.map String.data), csrf_token)

example : splitWhitespace ("GET /?code=a&state=b HTTP/1.1".data) =
    ["GET".data, "/?code=a&state=b".data, "HTTP/1.1".data] := by decide

example : extract_param ("/?code=abc&state=xyz&other=123".data) ("code".data) =
    some ("abc".data) := by decide

example : urlencoding_decode ("hello%20world".data) = "hello world".data := by decide

example : parse_callback_request ("GET /?code=abc123&state=xyz789 HTTP/1.1".data) =
    Except.ok ("abc123".data, "xyz789".data) := by decide

theorem isPrefixSeq_self_append (n t : Str) : isPrefixSeq n (n ++ t) = true := by
  induction n with
  | nil => rfl
  | cons a as ih => simp [isPrefixSeq, ih]

theorem isPrefixSeq_append_right (n s t : Str) (h : isPrefixSeq n s = true) :
    isPrefixSeq n (s ++ t) = true := by
  induction n generalizing s with
  | nil => rfl
  | cons a as ih =>
    cases s with
    | nil => simp [isPrefixSeq] at h
    | cons b bs =>
      simp only [isPrefixSeq] at h ⊢
      by_cases hab : a = b
      · rw [if_pos hab] at h ⊢
        exact ih bs h
      · rw [if_neg hab] at h
        exact absurd h (by simp)

theorem containsSeq_nil_needle (t : Str) : containsSeq t [] = true := by
  cases t <;> simp [containsSeq, isPrefixSeq]

theorem containsSeq_cons_of (c : Char) (t n : Str) (h : containsSeq t n = true) :
    containsSeq (c :: t) n = true := by
  simp [containsSeq, h]

theorem containsSeq_append_right (s t n : Str) (h : containsSeq t n = true) :
    containsSeq (s ++ t) n = true := by
  induction s with
  | nil => simpa using h
  | cons c cs ih => simpa using containsSeq_cons_of c (cs ++ t) n ih

theorem containsSeq_append_left (s t n : Str) (h : containsSeq s n = true) :
    containsSeq (s ++ t) n = true := by
  induction s with
  | nil =>
    cases n with
    | nil => exact containsSeq_nil_needle t
    | cons a as => simp [containsSeq, isPrefixSeq] at h
  | cons c cs ih =>
    rw [List.cons_append]
    simp only [containsSeq] at h ⊢
    rw [Bool.or_eq_true] at h
    rcases h with h1 | h2
    · have h3 := isPrefixSeq_append_right n (c :: cs) t h1
      rw [List.cons_append] at h3
      simp [h3]
    · simp [ih h2]

theorem containsSeq_self_append (n t : Str) : containsSeq (n ++ t) n = true := by
  cases n with
  | nil => exact containsSeq_nil_needle t
  | cons a as =>
    rw [List.cons_append]
    simp only [containsSeq]
    have h := isPrefixSeq_self_append (a :: as) t
    rw [List.cons_append] at h
    simp [h]

theorem containsSeq_self (n : Str) : containsSeq n n = true := by
  have h := containsSeq_self_append n []
  simpa using h

theorem containsSeq_infix (s pre n post : Str) (h : s = pre ++ (n ++ post)) :
    containsSeq s n = true := by
  subst h
  exact containsSeq_append_right pre _ n (containsSeq_self_append n post)

theorem splitOnChar_ne_nil (sep : Char) (s : Str) : splitOnChar sep s ≠ [] := by
  cases s with
  | nil => simp [splitOnChar]
  | cons c cs =>
    simp only [splitOnChar]
    split
    · simp
    · split <;> simp

theorem splitOnChar_head (sep : Char) (s : Str) :
    ∀ p rest, splitOnChar sep s = p :: rest → ∃ t, s = p ++ t := by
  induction s with
  | nil =>
    intro p rest h
    simp only [splitOnChar] at h
    injection h with h1 _
    exact ⟨[], by simp [h1.symm]⟩
  | cons c cs ih =>
    intro p rest h
    simp only [splitOnChar] at h
    by_cases hc : c = sep
    · rw [if_pos hc] at h
      injection h with h1 _
      exact ⟨c :: cs, by simp [h1.symm]⟩
    · rw [if_neg hc] at h
      cases hsp : splitOnChar sep cs with
      | nil => exact absurd hsp (splitOnChar_ne_nil sep cs)
      | cons q rest2 =>
        rw [hsp] at h
        injection h with h1 h2
        obtain ⟨t, ht⟩ := ih q rest2 hsp
        exact ⟨t, by simp [h1.symm, ht]⟩

theorem splitOnChar_pair (sep : Char) (s : Str) :
    ∀ p q rest, splitOnChar sep s = p :: q :: rest →
      ∃ t, s = p ++ sep :: t ∧ splitOnChar sep t = q :: rest := by
  induction s with
  | nil =>
    intro p q rest h
    simp only [splitOnChar] at h
    injection h with _ h2
    exact absurd h2.symm (by simp)
  | cons c cs ih =>
    intro p q rest h
    simp only [splitOnChar] at h
    by_cases hc : c = sep
    · rw [if_pos hc] at h
      injection h with h1 h2
      exact ⟨cs, by simp [h1.symm, hc], h2⟩
    · rw [if_neg hc] at h
      cases hsp : splitOnChar sep cs with
      | nil => exact absurd hsp (splitOnChar_ne_nil sep cs)
      | cons q0 rest0 =>
        rw [hsp] at h
        injection h with h1 h2
        rw [h2] at hsp
        obtain ⟨t, ht1, ht2⟩ := ih q0 q rest hsp
        exact ⟨t, by simp [h1.symm, ht1], ht2⟩

theorem splitOnChar_mem_infix (sep : Char) (s : Str) :
    ∀ x, x ∈ splitOnChar sep s → ∃ pre post, s = pre ++ (x ++ post) := by
  induction s with
  | nil =>
    intro x hx
    simp [splitOnChar] at hx
    exact ⟨[], [], by simp [hx]⟩
  | cons c cs ih =>
    intro x hx
    simp only [splitOnChar] at hx
    by_cases hc : c = sep
    · rw [if_pos hc] at hx
      rcases List.mem_cons.mp hx with h1 | h2
      · exact ⟨[], c :: cs, by simp [h1]⟩
      · obtain ⟨pre, post, hp⟩ := ih x h2
        exact ⟨c :: pre, post, by simp [hp]⟩
    · rw [if_neg hc] at hx
      cases hsp : splitOnChar sep cs with
      | nil => exact absurd hsp (splitOnChar_ne_nil sep cs)
      | cons q rest =>
        rw [hsp] at hx
        rcases List.mem_cons.mp hx with h1 | h2
        · obtain ⟨t, ht⟩ := splitOnChar_head sep cs q rest hsp
          exact ⟨[], t, by simp [h1, ht]⟩
        · have hx2 : x ∈ splitOnChar sep cs := by
            rw [hsp]; exact List.mem_cons_of_mem q h2
          obtain ⟨pre, post, hp⟩ := ih x hx2
          exact ⟨c :: pre, post, by simp [hp]⟩

theorem extract_param_loop_some (param v : Str) :
    ∀ pairs, extract_param_loop pairs param = some v →
      ∃ pair, pair ∈ pairs ∧ ∃ value rest, splitOnChar '=' pair = param :: value :: rest := by
  intro pairs
  induction pairs with
  | nil => intro h; simp [extract_param_loop] at h
  | cons pair rest ih =>
    intro h
    simp only [extract_param_loop] at h
    cases hsp : splitOnChar '=' pair with
    | nil =>
      rw [hsp] at h
      obtain ⟨p2, hmem, hrest⟩ := ih h
      exact ⟨p2, List.mem_cons_of_mem pair hmem, hrest⟩
    | cons key tl =>
      cases tl with
      | nil =>
        rw [hsp] at h
        obtain ⟨p2, hmem, hrest⟩ := ih h
        exact ⟨p2, List.mem_cons_of_mem pair hmem, hrest⟩
      | cons value tl2 =>
        rw [hsp] at h
        dsimp only at h
        by_cases hk : key = param
        · rw [if_pos hk] at h
          exact ⟨pair, List.mem_cons_self pair rest, value, tl2, by rw [hsp, hk]⟩
        · rw [if_neg hk] at h
          obtain ⟨p2, hmem, hrest⟩ := ih h
          exact ⟨p2, List.mem_cons_of_mem pair hmem, hrest⟩

theorem get?_one_mem {α : Type} (l : List α) (x : α) (h : l.get? 1 = some x) : x ∈ l := by
  cases l with
  | nil => simp at h
  | cons a tl =>
    cases tl with
    | nil => simp at h
    | cons b tl2 =>
      simp at h
      rw [h.symm]
      exact List.mem_cons_of_mem a (List.mem_cons_self b tl2)

theorem extract_param_some_infix (path param v : Str)
    (h : extract_param path param = some v) :
    containsSeq path (param ++ ['=']) = true := by
  unfold extract_param at h
  cases hq : (splitOnChar '?' path).get? 1 with
  | none => rw [hq] at h; exact absurd h (by simp)
  | some query =>
    rw [hq] at h
    obtain ⟨pair, hmem, value, rest, hpair⟩ := extract_param_loop_some param v _ h
    obtain ⟨t, ht, _⟩ := splitOnChar_pair '=' pair param value rest hpair
    obtain ⟨pre2, post2, hqd⟩ := splitOnChar_mem_infix '&' query pair hmem
    obtain ⟨pre, post, hpd⟩ :=
      splitOnChar_mem_infix '?' path query (get?_one_mem _ query hq)
    apply containsSeq_infix path (pre ++ pre2) (param ++ ['=']) (t ++ (post2 ++ post))
    rw [hpd, hqd, ht]
    simp [List.append_assoc]

theorem parse_callback_path_ne_csrf (path : Str) :
    parse_callback_path path ≠ Except.error AuthError.csrfMismatch := by
  unfold parse_callback_path
  split
  · simp
  · cases extract_param path ("code".data) with
    | none => simp
    | some code =>
      cases extract_param path ("state".data) with
      | none => simp
      | some state => simp

theorem parse_callback_request_ne_csrf (request : Str) :
    parse_callback_request request ≠ Except.error AuthError.csrfMismatch := by
  unfold parse_callback_request
  cases (splitWhitespace request).get? 1 with
  | none => simp
  | some path => simpa using parse_callback_path_ne_csrf path

/-- C1: for every callback whose parsed state is not string-equal to the
expected CSRF token, capture_callback writes the local HTTP error page and
fails with the CSRF-mismatch error, and run_oauth_flow returns that error
with no exchange-code step in its event trace. -/
theorem csrf_mismatch_aborts (token_result : Str → Except AuthError Str)
    (csrf request code state : Str)
    (hparse : parse_callback_request request = Except.ok (code, state))
    (hne : state ≠ csrf) :
    (capture_callback csrf request).responses =
      [HttpResponse.failure csrf_mismatch_page_message] ∧
    (capture_callback csrf request).result = Except.error AuthError.csrfMismatch ∧
    (run_oauth_flow token_result csrf request).2 = Except.error AuthError.csrfMismatch ∧
    ((run_oauth_flow token_result csrf request).1.all fun e => ! e.isExchangeCode) = true := by
  have hcc : capture_callback csrf request =
      { responses := [HttpResponse.failure csrf_mismatch_page_message],
        result := Except.error AuthError.csrfMismatch } := by
    unfold capture_callback
    rw [hparse]
    dsimp only
    rw [if_pos hne]
  refine ⟨by rw [hcc], by rw [hcc], ?_, ?_⟩
  · simp [run_oauth_flow, hcc]
  · simp [run_oauth_flow, hcc, FlowEvent.isExchangeCode]

theorem csrf_mismatch_aborts_witness :
    (capture_callback ("abc".data) ("GET /?code=ok&state=xyz HTTP/1.1".data)).result =
      Except.error AuthError.csrfMismatch :=
  (csrf_mismatch_aborts (fun c => Except.ok c) ("abc".data)
    ("GET /?code=ok&state=xyz HTTP/1.1".data) ("ok".data) ("xyz".data)
    (by decide) (by decide)).2.1

/-- C2: when the callback's query string has an error parameter, parsing
fails with the authorization-failed error whose message comes from
error_description when present and from error otherwise; no success result
is possible and the outcome of capture_callback is the same for every
expected CSRF token, so the CSRF comparison is never reached. -/
theorem error_param_takes_precedence (request path v : Str)
    (hpath : (splitWhitespace request).get? 1 = some path)
    (herr : extract_param path ("error".data) = some v) :
    parse_callback_request request =
      Except.error (AuthError.authorizationFailed
        ((extract_param path ("error_description".data)).getD v)) ∧
    (∀ r, parse_callback_request request ≠ Except.ok r) ∧
    ∀ csrf, (capture_callback csrf request).result =
      Except.error (AuthError.authorizationFailed
        ((extract_param path ("error_description".data)).getD v)) := by
  have hsub : containsSeq path ("error=".data) = true := by
    have h := extract_param_some_infix path ("error".data) v herr
    have he : ("error".data ++ ['='] : Str) = "error=".data := by decide
    rw [he] at h
    exact h
  have h1 : parse_callback_request request = parse_callback_path path := by
    unfold parse_callback_request
    rw [hpath]
  have h2 : parse_callback_path path =
      Except.error (AuthError.authorizationFailed
        ((extract_param path ("error_description".data)).getD v)) := by
    unfold parse_callback_path
    rw [if_pos hsub, herr]
    cases hed : extract_param path ("error_description".data) with
    | none => simp [Option.orElse]
    | some d => simp [Option.orElse]
  refine ⟨h1.trans h2, ?_, ?_⟩
  · intro r h
    rw [h1.trans h2] at h
    cases h
  · intro csrf
    unfold capture_callback
    rw [h1.trans h2]

theorem error_param_takes_precedence_witness :
    parse_callback_request ("GET /?error=access_denied&code=abc&state=xyz HTTP/1.1".data) =
      Except.error (AuthError.authorizationFailed ("access_denied".data)) :=
  ((error_param_takes_precedence
      ("GET /?error=access_denied&code=abc&state=xyz HTTP/1.1".data)
      ("/?error=access_denied&code=abc&state=xyz".data) ("access_denied".data)
      (by decide) (by decide)).1).trans (by decide)

/-- C3 counterexample: in run_oauth_flow the browser is opened strictly
before the listener is bound, so the claimed order (bind before browser
launch) fails on a concrete run. -/
theorem browser_before_bind_counterexample :
    ¬ ((run_oauth_flow (fun c => Except.ok c) ("xyz".data)
          ("GET /?code=abc&state=xyz HTTP/1.1".data)).1.indexOf FlowEvent.bindListener <
        (run_oauth_flow (fun c => Except.ok c) ("xyz".data)
          ("GET /?code=abc&state=xyz HTTP/1.1".data)).1.indexOf FlowEvent.openBrowser) ∧
    (run_oauth_flow (fun c => Except.ok c) ("xyz".data)
        ("GET /?code=abc&state=xyz HTTP/1.1".data)).1.indexOf FlowEvent.openBrowser <
      (run_oauth_flow (fun c => Except.ok c) ("xyz".data)
        ("GET /?code=abc&state=xyz HTTP/1.1".data)).1.indexOf FlowEvent.bindListener := by
  decide

/-- C3 amended: on every run the event order of run_oauth_flow is fixed:
build the authorization URL, open the browser, and only then bind the
listener, accept the connection and read the request line. -/
theorem flow_event_order (token_result : Str → Except AuthError Str) (csrf request : Str) :
    ∃ rest, (run_oauth_flow token_result csrf request).1 =
      FlowEvent.getAuthUrl :: FlowEvent.openBrowser :: FlowEvent.bindListener ::
        FlowEvent.acceptConnection :: FlowEvent.readRequestLine :: rest := by
  cases hr : (capture_callback csrf request).result with
  | error e =>
    refine ⟨(capture_callback csrf request).responses.map FlowEvent.writeResponse, ?_⟩
    simp [run_oauth_flow, hr]
  | ok code =>
    refine ⟨(capture_callback csrf request).responses.map FlowEvent.writeResponse ++
      [FlowEvent.exchangeCode code], ?_⟩
    simp [run_oauth_flow, hr]

/-- C4 counterexample: on a callback carrying an error parameter the
listener returns the failure with an empty response list - no HTTP
response is written back to the browser, contradicting the claim that a
response is written regardless of outcome. -/
theorem no_response_on_parse_error_counterexample :
    (capture_callback ("tok".data) ("GET /?error=denied HTTP/1.1".data)).responses = [] ∧
    (capture_callback ("tok".data) ("GET /?error=denied HTTP/1.1".data)).result =
      Except.error (AuthError.authorizationFailed ("denied".data)) := by
  decide

/-- C4 amended: capture_callback writes the success page exactly when it
returns a code and the failure page exactly on a CSRF mismatch; on every
parse failure (authorization error, missing code, missing state, malformed
request) it returns the error with no response written. -/
theorem capture_callback_response_policy (csrf request : Str) :
    (∀ code, (capture_callback csrf request).result = Except.ok code →
      (capture_callback csrf request).responses = [HttpResponse.success]) ∧
    ((capture_callback csrf request).result = Except.error AuthError.csrfMismatch →
      (capture_callback csrf request).responses =
        [HttpResponse.failure csrf_mismatch_page_message]) ∧
    (∀ e, (capture_callback csrf request).result = Except.error e →
      e ≠ AuthError.csrfMismatch → (capture_callback csrf request).responses = []) := by
  cases hp : parse_callback_request request with
  | error e0 =>
    have hne : e0 ≠ AuthError.csrfMismatch := by
      intro he
      rw [he] at hp
      exact parse_callback_request_ne_csrf request hp
    unfold capture_callback
    rw [hp]
    refine ⟨?_, ?_, ?_⟩
    · intro code h
      exact absurd h (by simp)
    · intro h
      simp only [Except.error.injEq] at h
      exact absurd h hne
    · intro e _ _
      rfl
  | ok p =>
    obtain ⟨code, state⟩ := p
    unfold capture_callback
    rw [hp]
    dsimp only
    by_cases hs : state ≠ csrf
    · rw [if_pos hs]
      refine ⟨?_, ?_, ?_⟩
      · intro c h
        exact absurd h (by simp)
      · intro _
        rfl
      · intro e h hne
        simp only [Except.error.injEq] at h
        exact absurd h.symm hne
    · rw [if_neg hs]
      refine ⟨?_, ?_, ?_⟩
      · intro c _
        rfl
      · intro h
        exact absurd h (by simp)
      · intro e h _
        exact absurd h (by simp)

theorem capture_callback_response_policy_witness :
    (capture_callback ("tok".data) ("GET /?error=x HTTP/1.1".data)).responses = [] :=
  (capture_callback_response_policy ("tok".data) ("GET /?error=x HTTP/1.1".data)).2.2
    (AuthError.authorizationFailed ("x".data)) (by decide) (by decide)

/-- C5 counterexample: the fixed redirect URI of the source is
http://localhost:8080, which is not http://127.0.0.1:8080/ and does not
even mention the literal host 127.0.0.1 the listener binds. -/
theorem redirect_uri_host_counterexample :
    OAUTH_REDIRECT_URI = "http://localhost:8080" ∧
    OAUTH_REDIRECT_URI ≠ "http://127.0.0.1:8080/" ∧
    capture_callback_bind_addr = "127.0.0.1:8080" ∧
    containsSeq OAUTH_REDIRECT_URI.data ("127.0.0.1".data) = false := by
  decide

/-- C5 amended: the fixed redirect URI is http://localhost:8080 while the
listener binds 127.0.0.1:8080: the ports agree (both 8080) but the host
names differ textually (localhost versus 127.0.0.1), so the URI matches
the bound address only up to the usual localhost resolution. -/
theorem redirect_uri_port_matches_bind :
    OAUTH_REDIRECT_URI = "http://localhost:8080" ∧
    capture_callback_bind_addr = "127.0.0.1:8080" ∧
    containsSeq OAUTH_REDIRECT_URI.data (":8080".data) = true ∧
    containsSeq capture_callback_bind_addr.data (":8080".data) = true ∧
    containsSeq OAUTH_REDIRECT_URI.data ("localhost".data) = true ∧
    containsSeq capture_callback_bind_addr.data ("localhost".data) = false := by
  decide

/-- C6 counterexample: the query string of /?xerror=y has no parameter
named error and no code parameter, yet parsing reports the authorization
failure (the substring test on "error=" fires inside the name xerror)
instead of the missing-authorization-code error the claim requires. -/
theorem missing_code_shadowed_counterexample :
    extract_param ("/?xerror=y".data) ("error".data) = none ∧
    extract_param ("/?xerror=y".data) ("code".data) = none ∧
    parse_callback_request ("GET /?xerror=y HTTP/1.1".data) ≠
      Except.error AuthError.noAuthorizationCode ∧
    parse_callback_request ("GET /?xerror=y HTTP/1.1".data) =
      Except.error (AuthError.authorizationFailed unknown_authorization_error) := by
  decide

/-- C6 amended: for every callback path that does not contain the
substring "error=": a missing code parameter fails with the
missing-authorization-code error (regardless of state), and a present
code with a missing state parameter fails with the missing-state error -
the code check runs before the state check. -/
theorem missing_code_then_missing_state (request path : Str)
    (hpath : (splitWhitespace request).get? 1 = some path)
    (hnerr : containsSeq path ("error=".data) = false) :
    (extract_param path ("code".data) = none →
      parse_callback_request request = Except.error AuthError.noAuthorizationCode) ∧
    (∀ c, extract_param path ("code".data) = some c →
      extract_param path ("state".data) = none →
      parse_callback_request request = Except.error AuthError.noState) := by
  have h1 : parse_callback_request request = parse_callback_path path := by
    unfold parse_callback_request
    rw [hpath]
  have hcond : ¬ containsSeq path ("error=".data) = true := by
    rw [hnerr]; simp
  refine ⟨?_, ?_⟩
  · intro hcode
    rw [h1]
    unfold parse_callback_path
    rw [if_neg hcond, hcode]
  · intro c hcode hstate
    rw [h1]
    unfold parse_callback_path
    rw [if_neg hcond, hcode]
    dsimp only
    rw [hstate]

theorem missing_code_then_missing_state_witness :
    parse_callback_request ("GET /?state=xyz HTTP/1.1".data) =
      Except.error AuthError.noAuthorizationCode ∧
    parse_callback_request ("GET /?code=abc HTTP/1.1".data) =
      Except.error AuthError.noState :=
  ⟨(missing_code_then_missing_state ("GET /?state=xyz HTTP/1.1".data)
      ("/?state=xyz".data) (by decide) (by decide)).1 (by decide),
   (missing_code_then_missing_state ("GET /?code=abc HTTP/1.1".data)
      ("/?code=abc".data) (by decide) (by decide)).2 ("abc".data) (by decide) (by decide)⟩

/-- C7: the percent-decoder maps each reserved escape to its literal
character, and extract_param applies it to query parameter values. -/
theorem urlencoding_decode_reserved_roundtrip :
    urlencoding_decode ("%20".data) = " ".data ∧
    urlencoding_decode ("%2B".data) = "+".data ∧
    urlencoding_decode ("%3D".data) = "=".data ∧
    urlencoding_decode ("%26".data) = "&".data ∧
    urlencoding_decode ("%3F".data) = "?".data ∧
    urlencoding_decode ("%2F".data) = "/".data ∧
    urlencoding_decode ("%3A".data) = ":".data ∧
    urlencoding_decode ("a%20b%2Bc".data) = "a b+c".data ∧
    extract_param ("/?a=%20&b=%2B&c=%3A&d=%3D&e=%26&f=%3F&g=%2F".data) ("a".data) =
      some (" ".data) ∧
    extract_param ("/?a=%20&b=%2B&c=%3A&d=%3D&e=%26&f=%3F&g=%2F".data) ("b".data) =
      some ("+".data) ∧
    extract_param ("/?a=%20&b=%2B&c=%3A&d=%3D&e=%26&f=%3F&g=%2F".data) ("c".data) =
      some (":".data) ∧
    extract_param ("/?a=%20&b=%2B&c=%3A&d=%3D&e=%26&f=%3F&g=%2F".data) ("d".data) =
      some ("=".data) ∧
    extract_param ("/?a=%20&b=%2B&c=%3A&d=%3D&e=%26&f=%3F&g=%2F".data) ("e".data) =
      some ("&".data) ∧
    extract_param ("/?a=%20&b=%2B&c=%3A&d=%3D&e=%26&f=%3F&g=%2F".data) ("f".data) =
      some ("?".data) ∧
    extract_param ("/?a=%20&b=%2B&c=%3A&d=%3D&e=%26&f=%3F&g=%2F".data) ("g".data) =
      some ("/".data) := by
  decide

/-- C8: every invocation of the token exchange builds its HTTP client with
the redirect policy disabled. -/
theorem exchange_code_never_follows_redirects (code : Str) :
    (exchange_code code).client.redirect = RedirectPolicy.none ∧
    (exchange_code code).code = code :=
  ⟨rfl, rfl⟩

/-- C9: the authorization URL returned by get_auth_url carries
response_type=code, the configured client_id, both configured scopes, and
a state value equal to the returned CSRF token. -/
theorem get_auth_url_contents (client_id csrf_token : Str) :
    containsSeq (get_auth_url client_id csrf_token).1 ("response_type=code".data) = true ∧
    containsSeq (get_auth_url client_id csrf_token).1 client_id = true ∧
    containsSeq (get_auth_url client_id csrf_token).1 ("tasks:write".data) = true ∧
    containsSeq (get_auth_url client_id csrf_token).1 ("tasks:read".data) = true ∧
    containsSeq (get_auth_url client_id csrf_token).1 ("state=".data ++ csrf_token) = true ∧
    (get_auth_url client_id csrf_token).2 = csrf_token := by
  simp only [get_auth_url, authorize_url]
  refine ⟨?_, ?_, ?_, ?_, ?_, trivial⟩
  · apply containsSeq_append_right
    apply containsSeq_append_left
    decide
  · apply containsSeq_append_right
    apply containsSeq_append_right
    exact containsSeq_self_append client_id _
  · apply containsSeq_append_right
    apply containsSeq_append_right
    apply containsSeq_append_right
    apply containsSeq_append_right
    apply containsSeq_append_right
    apply containsSeq_append_right
    apply containsSeq_append_left
    decide
  · apply containsSeq_append_right
    apply containsSeq_append_right
    apply containsSeq_append_right
    apply containsSeq_append_right
    apply containsSeq_append_right
    apply containsSeq_append_right
    apply containsSeq_append_left
    decide
  · apply containsSeq_append_right
    apply containsSeq_append_right
    apply containsSeq_append_right
    apply containsSeq_append_right
    apply containsSeq_append_right
    apply containsSeq_append_right
    apply containsSeq_append_right
    exact containsSeq_cons_of '&' _ _ (containsSeq_self _)

/-- C10: the error branch of parse_callback_request is a plain substring
search: whenever the path contains "error=" anywhere, parsing rejects the
callback with the authorization failure built from the error_description
and error parameters, and never returns a success - no matter whether any
parameter is actually named error. -/
theorem error_substring_rejects (request path : Str)
    (hpath : (splitWhitespace request).get? 1 = some path)
    (hsub : containsSeq path ("error=".data) = true) :
    parse_callback_request request =
      Except.error (AuthError.authorizationFailed
        (((extract_param path ("error_description".data)).orElse
            (fun _ => extract_param path ("error".data))).getD
          unknown_authorization_error)) ∧
    ∀ r, parse_callback_request request ≠ Except.ok r := by
  have h1 : parse_callback_request request = parse_callback_path path := by
    unfold parse_callback_request
    rw [hpath]
  have h2 : parse_callback_path path =
      Except.error (AuthError.authorizationFailed
        (((extract_param path ("error_description".data)).orElse
            (fun _ => extract_param path ("error".data))).getD
          unknown_authorization_error)) := by
    unfold parse_callback_path
    rw [if_pos hsub]
  refine ⟨h1.trans h2, ?_⟩
  intro r h
  rw [h1.trans h2] at h
  cases h

theorem error_substring_rejects_witness :
    extract_param ("/?app_error=x&code=abc&state=xyz".data) ("error".data) = none ∧
    extract_param ("/?app_error=x&code=abc&state=xyz".data) ("code".data) =
      some ("abc".data) ∧
    extract_param ("/?app_error=x&code=abc&state=xyz".data) ("state".data) =
      some ("xyz".data) ∧
    parse_callback_request ("GET /?app_error=x&code=abc&state=xyz HTTP/1.1".data) =
      Except.error (AuthError.authorizationFailed unknown_authorization_error) :=
  ⟨by decide, by decide, by decide,
    ((error_substring_rejects ("GET /?app_error=x&code=abc&state=xyz HTTP/1.1".data)
        ("/?app_error=x&code=abc&state=xyz".data) (by decide) (by decide)).1).trans
      (by decide)⟩

theorem flow_event_order_witness :
    ∃ rest, (run_oauth_flow (fun c => Except.ok c) ("tok".data)
        ("GET /?code=abc&state=tok HTTP/1.1".data)).1 =
      FlowEvent.getAuthUrl :: FlowEvent.openBrowser :: FlowEvent.bindListener ::
        FlowEvent.acceptConnection :: FlowEvent.readRequestLine :: rest :=
  flow_event_order (fun c => Except.ok c) ("tok".data)
    ("GET /?code=abc&state=tok HTTP/1.1".data)

theorem exchange_code_never_follows_redirects_witness :
    (exchange_code ("abc".data)).client.redirect = RedirectPolicy.none ∧
    (exchange_code ("abc".data)).code = "abc".data :=
  exchange_code_never_follows_redirects ("abc".data)

theorem get_auth_url_contents_witness :
    containsSeq (get_auth_url ("myclient".data) ("tok".data)).1
      ("response_type=code".data) = true ∧
    containsSeq (get_auth_url ("myclient".data) ("tok".data)).1 ("myclient".data) = true ∧
    containsSeq (get_auth_url ("myclient".data) ("tok".data)).1 ("tasks:write".data) = true ∧
    containsSeq (get_auth_url ("myclient".data) ("tok".data)).1 ("tasks:read".data) = true ∧
    containsSeq (get_auth_url ("myclient".data) ("tok".data)).1
      ("state=".data ++ "tok".data) = true ∧
    (get_auth_url ("myclient".data) ("tok".data)).2 = "tok".data :=
  get_auth_url_contents ("myclient".data) ("tok".data)
